import Mathlib

/-!
Verification of the procedural loop synthesizer and playback controller
in `src/services/audioService.ts` (class `AudioManager`).

The synthesizer (`generateDiscoLoop`) is embedded over exact arithmetic:
sample times and the timing grid live in `ℚ` (so every branch condition of
the source is decidable), while voice values live in `ℝ` because the kick
and hi-hat use `Math.sin` / `Math.exp`.  The JavaScript remainder operator
`%` is only applied to nonnegative numerators and positive moduli in the
source, where it agrees with `x - m * ⌊x / m⌋`.

The playback controller is embedded as a state record with one transition
function per method.  `Math.random()` is modelled by an explicit noise
stream `noise : ℕ → ℝ` giving, for each sample index, the value of
`Math.random() * 2 - 1` that the hi-hat voice would draw there.  Fallible
operations return a `Bool` flag that is `true` exactly when an exception
escapes to the caller.
-/

namespace CatDancer

/-- JavaScript remainder `x % m` as used in the source: every use has a
nonnegative numerator and a positive modulus, where `x % m = x - m * ⌊x / m⌋`. -/
def jsMod (x m : ℚ) : ℚ := x - m * ⌊x / m⌋

/-- Time of sample `i` at rate `sr`: `const t = i / sampleRate`. -/
def t (sr i : ℕ) : ℚ := (i : ℚ) / (sr : ℚ)

/-- Kick voice of `generateDiscoLoop`:
`beatTime = t % 0.5`; inside the window `beatTime < 0.15`,
`freq = 150 * exp(-beatTime * 25)`, `amp = exp(-beatTime * 20)`,
`kick = sin(2 * PI * freq * beatTime) * amp`; outside the window `kick = 0`. -/
noncomputable def kickAt (sr i : ℕ) : ℝ :=
  let beatTime := jsMod (t sr i) 0.5
  if beatTime < 0.15 then
    let freq : ℝ := 150 * Real.exp (-(beatTime : ℝ) * 25)
    let amp : ℝ := Real.exp (-(beatTime : ℝ) * 20)
    Real.sin (2 * Real.pi * freq * (beatTime : ℝ)) * amp
  else 0

/-- Hi-hat voice of `generateDiscoLoop`:
`halfBeatTime = t % 0.25`, `isOffBeat = Math.floor(t / 0.25) % 2 !== 0`;
when `isOffBeat && halfBeatTime < 0.05`, the value is
`noise * exp(-halfBeatTime * 80) * 0.3` where `noise = Math.random() * 2 - 1`
is supplied by the noise stream; otherwise `0`. -/
noncomputable def hatAt (noise : ℕ → ℝ) (sr i : ℕ) : ℝ :=
  let halfBeatTime := jsMod (t sr i) 0.25
  if ⌊t sr i / 0.25⌋ % 2 ≠ 0 ∧ halfBeatTime < 0.05 then
    noise i * Real.exp (-(halfBeatTime : ℝ) * 80) * 0.3
  else 0

/-- The noise-free factor of the hi-hat voice: its gating (timing) and
exponential envelope, so that `hatAt noise sr i = hatEnvelope sr i * noise i`. -/
noncomputable def hatEnvelope (sr i : ℕ) : ℝ :=
  let halfBeatTime := jsMod (t sr i) 0.25
  if ⌊t sr i / 0.25⌋ % 2 ≠ 0 ∧ halfBeatTime < 0.05 then
    Real.exp (-(halfBeatTime : ℝ) * 80) * 0.3
  else 0

/-- Bass root frequency of `generateDiscoLoop`:
`measurePos = t % 2.0`; `bassFreq = 49.00`, reassigned to `98.00` when
`measurePos > 1.0 && measurePos < 1.25`, then reassigned to `73.42` when
`measurePos > 1.75` (the last assignment wins, as in the source). -/
def bassFreqAt (sr i : ℕ) : ℚ :=
  let measurePos := jsMod (t sr i) 2
  let f1 := if measurePos > 1 ∧ measurePos < 1.25 then 98.00 else 49.00
  if measurePos > 1.75 then 73.42 else f1

/-- Bass voice of `generateDiscoLoop`: sawtooth approximation
`bassPhase = (t * bassFreq) % 1.0`, `bass = (bassPhase * 2 - 1) * 0.4`. -/
def bassAt (sr i : ℕ) : ℚ :=
  let bassPhase := jsMod (t sr i * bassFreqAt sr i) 1
  (bassPhase * 2 - 1) * 0.4

/-- The limiter of `generateDiscoLoop`: `Math.max(-1, Math.min(1, sample))`. -/
noncomputable def clip (x : ℝ) : ℝ := max (-1) (min 1 x)

/-- One sample of the loop body of `generateDiscoLoop`:
`sample = (kick * 0.8) + (hat * 0.6) + (bass * 0.5)` followed by the limiter. -/
noncomputable def sampleAt (noise : ℕ → ℝ) (sr i : ℕ) : ℝ :=
  clip (kickAt sr i * 0.8 + hatAt noise sr i * 0.6 + (bassAt sr i : ℝ) * 0.5)

/-- A stereo buffer: two channels of floating-point samples. -/
structure StereoBuffer where
  left : List ℝ
  right : List ℝ

/-- The synthesizer `generateDiscoLoop`: `duration = 5.0` seconds,
`length = sampleRate * duration` (exact, since the duration is the integer
constant `5.0`), and both channels receive the identical mono mix. -/
noncomputable def generateDiscoLoop (noise : ℕ → ℝ) (sampleRate : ℕ) : StereoBuffer :=
  let length := sampleRate * 5
  { left := (List.range length).map (sampleAt noise sampleRate)
    right := (List.range length).map (sampleAt noise sampleRate) }

/-- The audio output device (`AudioContext`): its state (`suspended` or
running) and its sample rate. -/
structure AudioCtx where
  suspended : Bool
  sampleRate : ℕ

/-- The state of an `AudioManager` instance:
`ctx`, `buffer`, `gainNode` model the nullable fields of the class
(`gainNode` carries the value of `gainNode.gain.value`); `source` records
whether the session field is non-null; `isPlaying` is the flag of the class;
`live` is the number of playback sessions that have been started on the
device and not yet stopped (the environment-side session count). -/
structure AudioManager where
  ctx : Option AudioCtx
  buffer : Option StereoBuffer
  source : Bool
  isPlaying : Bool
  gainNode : Option ℝ
  live : ℕ

/-- The constructor of `AudioManager`: when an `AudioContext` class is
available it creates the context and a gain node (default `gain.value = 1`)
connected to the destination; otherwise both stay null.  No buffer, no
source, not playing. -/
def mkAudioManager (c0 : Option AudioCtx) : AudioManager :=
  { ctx := c0, buffer := none, source := false, isPlaying := false,
    gainNode := c0.map fun _ => 1, live := 0 }

/-- The method `stop()`.  The second component is `true` when an exception
escapes to the caller: it never does, because the only fallible calls
(`source.stop()`, `source.disconnect()`) sit inside a try/catch whose
handler ignores the error, and they are skipped entirely when `source` is
null.  Stopping an active source removes it from the running sessions. -/
def stop (m : AudioManager) : AudioManager × Bool :=
  if m.source then
    ({ m with source := false, isPlaying := false, live := m.live - 1 }, false)
  else
    ({ m with isPlaying := false }, false)

/-- The method `play()`: returns unchanged when `ctx`, `buffer` or
`gainNode` is null; otherwise stops any existing source, then creates a new
looping buffer source bound to the cached buffer, connects it to the gain
node and starts it (one more running session). -/
def play (m : AudioManager) : AudioManager :=
  if m.ctx.isNone || m.buffer.isNone || m.gainNode.isNone then m
  else
    let m1 := (stop m).1
    { m1 with source := true, isPlaying := true, live := m1.live + 1 }

/-- The method `setVolume(val)`: when a gain node exists, assigns
`gainNode.gain.value = val` with no clamping; otherwise does nothing. -/
def setVolume (m : AudioManager) (val : ℝ) : AudioManager :=
  match m.gainNode with
  | some _ => { m with gainNode := some val }
  | none => m

/-- The buffer-caching step of `init()`:
`if (!this.buffer) { this.buffer = this.generateDiscoLoop(); }`. -/
noncomputable def genBufferIfMissing (m : AudioManager) (noise : ℕ → ℝ) (sr : ℕ) :
    AudioManager :=
  match m.buffer with
  | none => { m with buffer := some (generateDiscoLoop noise sr) }
  | some _ => m

/-- The method `init()`: returns unchanged when `ctx` is null; when the
context is suspended it awaits `ctx.resume()` — `resumeOk` tells whether
that platform call succeeds.  On success the context becomes running and
the buffer is synthesized if missing; on failure the rejection propagates
out of the async method (second component `true`, no state change, no
buffer generated).  When the context is already running, only the
buffer-caching step runs. -/
noncomputable def init (m : AudioManager) (resumeOk : Bool) (noise : ℕ → ℝ) :
    AudioManager × Bool :=
  match m.ctx with
  | none => (m, false)
  | some c =>
    if c.suspended then
      if resumeOk then
        (genBufferIfMissing { m with ctx := some { c with suspended := false } }
          noise c.sampleRate, false)
      else (m, true)
    else (genBufferIfMissing m noise c.sampleRate, false)

lemma jsMod_eq_self {x m : ℚ} (h0 : 0 ≤ x) (hlt : x < m) : jsMod x m = x := by
  have hm : 0 < m := lt_of_le_of_lt h0 hlt
  have hf : ⌊x / m⌋ = 0 := by
    rw [Int.floor_eq_zero_iff, Set.mem_Ico]
    exact ⟨div_nonneg h0 hm.le, (div_lt_one hm).mpr hlt⟩
  unfold jsMod
  rw [hf]
  simp

lemma jsMod_nonneg {x m : ℚ} (hm : 0 < m) : 0 ≤ jsMod x m := by
  have h1 : (⌊x / m⌋ : ℚ) ≤ x / m := Int.floor_le _
  have h2 : m * (⌊x / m⌋ : ℚ) ≤ m * (x / m) := mul_le_mul_of_nonneg_left h1 hm.le
  have h3 : m * (x / m) = x := by field_simp
  unfold jsMod
  linarith

lemma jsMod_lt {x m : ℚ} (hm : 0 < m) : jsMod x m < m := by
  have h1 : x / m < ⌊x / m⌋ + 1 := Int.lt_floor_add_one _
  have h2 : x < ((⌊x / m⌋ : ℚ) + 1) * m := (div_lt_iff₀ hm).mp h1
  unfold jsMod
  nlinarith

lemma getD_map_range (f : ℕ → ℝ) (n i : ℕ) (h : i < n) :
    ((List.range n).map f).getD i 0 = f i := by
  rw [List.getD_eq_getElem _ _ (by simpa using h)]
  simp

lemma neg_one_le_clip (x : ℝ) : -1 ≤ clip x := le_max_left _ _

lemma clip_le_one (x : ℝ) : clip x ≤ 1 := max_le (by norm_num) (min_le_left _ _)

/-- C1: every sample of the synthesized buffer carries the same value on the
left and right channel, equal to `0.8·kick + 0.6·hat + 0.5·bass` hard-clipped
to `[-1, 1]`, hence every sample of both channels lies in `[-1, 1]`. -/
theorem c1_mix_and_clip (noise : ℕ → ℝ) (sr i : ℕ)
    (h : i < (generateDiscoLoop noise sr).left.length) :
    (generateDiscoLoop noise sr).left.getD i 0 =
      clip (0.8 * kickAt sr i + 0.6 * hatAt noise sr i + 0.5 * (bassAt sr i : ℝ)) ∧
    (generateDiscoLoop noise sr).right.getD i 0 =
      (generateDiscoLoop noise sr).left.getD i 0 ∧
    -1 ≤ (generateDiscoLoop noise sr).left.getD i 0 ∧
    (generateDiscoLoop noise sr).left.getD i 0 ≤ 1 := by
  have hlen : i < sr * 5 := by
    simpa [generateDiscoLoop] using h
  have hleft : (generateDiscoLoop noise sr).left.getD i 0 = sampleAt noise sr i := by
    simpa [generateDiscoLoop] using getD_map_range (sampleAt noise sr) (sr * 5) i hlen
  have hright : (generateDiscoLoop noise sr).right.getD i 0 = sampleAt noise sr i := by
    simpa [generateDiscoLoop] using getD_map_range (sampleAt noise sr) (sr * 5) i hlen
  refine ⟨?_, by rw [hleft, hright], ?_, ?_⟩
  · rw [hleft]
    unfold sampleAt
    ring_nf
  · rw [hleft]
    exact neg_one_le_clip _
  · rw [hleft]
    exact clip_le_one _

theorem c1_witness :
    0 < (generateDiscoLoop (fun _ => 0) 1).left.length ∧
    -1 ≤ (generateDiscoLoop (fun _ => 0) 1).left.getD 0 0 ∧
    (generateDiscoLoop (fun _ => 0) 1).left.getD 0 0 ≤ 1 :=
  have h : 0 < (generateDiscoLoop (fun _ => 0) 1).left.length := by
    simp [generateDiscoLoop]
  ⟨h, (c1_mix_and_clip (fun _ => 0) 1 0 h).2.2.1,
    (c1_mix_and_clip (fun _ => 0) 1 0 h).2.2.2⟩

/-- C2: for every positive sample rate, both channels of the synthesized
buffer have exactly `round(sampleRate × 5.0)` samples, the source duration
being the constant `5.0` seconds; at 44100 Hz this is 220500 samples. -/
theorem c2_buffer_length (noise : ℕ → ℝ) (sr : ℕ) (_h : 0 < sr) :
    ((generateDiscoLoop noise sr).left.length : ℤ) = round ((sr : ℝ) * 5) ∧
    ((generateDiscoLoop noise sr).right.length : ℤ) = round ((sr : ℝ) * 5) := by
  have hr : round ((sr : ℝ) * 5) = ((sr * 5 : ℕ) : ℤ) := by
    rw [show ((sr : ℝ) * 5) = ((sr * 5 : ℕ) : ℝ) by push_cast; ring, round_natCast]
  constructor <;> simp [generateDiscoLoop, hr]

theorem c2_witness :
    0 < 44100 ∧
    ((generateDiscoLoop (fun _ => 0) 44100).left.length : ℤ) = round ((44100 : ℝ) * 5) ∧
    (generateDiscoLoop (fun _ => 0) 44100).left.length = 220500 :=
  ⟨by norm_num, (c2_buffer_length (fun _ => 0) 44100 (by norm_num)).1,
    by simp [generateDiscoLoop]⟩

/-- C3: with `τ = t mod 0.5`, the kick contribution is
`sin(2π · (150·e^(−25τ)) · τ) · e^(−20τ)` when `τ < 0.15` and exactly `0`
otherwise; in particular it is `0` at `t = 0` and at `t = 0.3`. -/
theorem c3_kick_formula (sr i : ℕ) (τ : ℚ) (hτ : τ = jsMod (t sr i) 0.5) :
    (τ < 0.15 → kickAt sr i =
      Real.sin (2 * Real.pi * (150 * Real.exp (-25 * (τ : ℝ))) * (τ : ℝ)) *
        Real.exp (-20 * (τ : ℝ))) ∧
    (0.15 ≤ τ → kickAt sr i = 0) ∧
    (t sr i = 0 → kickAt sr i = 0) ∧
    (t sr i = 3/10 → kickAt sr i = 0) := by
  subst hτ
  have hzero : t sr i = 0 → jsMod (t sr i) 0.5 = 0 := by
    intro h0
    rw [h0]
    unfold jsMod
    norm_num
  refine ⟨?_, ?_, ?_, ?_⟩
  · intro hlt
    simp only [kickAt]
    rw [if_pos hlt]
    rw [show -((jsMod (t sr i) 0.5 : ℚ) : ℝ) * 25 = -25 * ((jsMod (t sr i) 0.5 : ℚ) : ℝ) by ring,
      show -((jsMod (t sr i) 0.5 : ℚ) : ℝ) * 20 = -20 * ((jsMod (t sr i) 0.5 : ℚ) : ℝ) by ring]
  · intro hge
    simp only [kickAt]
    rw [if_neg (not_lt.mpr hge)]
  · intro h0
    simp only [kickAt]
    rw [if_pos (by rw [hzero h0]; norm_num)]
    rw [hzero h0]
    push_cast
    simp
  · intro h3
    have hj : jsMod (t sr i) 0.5 = 3 / 10 := by
      rw [h3]
      exact jsMod_eq_self (by norm_num) (by norm_num)
    simp only [kickAt]
    rw [if_neg (by rw [hj]; norm_num)]

theorem c3_witness : t 10 3 = 3 / 10 ∧ kickAt 10 3 = 0 :=
  have ht : t 10 3 = 3 / 10 := by norm_num [t]
  ⟨ht, (c3_kick_formula 10 3 (jsMod (t 10 3) 0.5) rfl).2.2.2 ht⟩

/-- C4 counterexample: at sample rate 1 and index 1 the time is `t = 1`, so
`measure_pos = 1` lies in the half-open interval `[1.0, 1.25)`, yet the bass
root frequency is 49.00 Hz, not 98.00 Hz: the source tests
`measurePos > 1.0`, which excludes the left endpoint. -/
theorem c4_counterexample :
    1 ≤ jsMod (t 1 1) 2 ∧ jsMod (t 1 1) 2 < 1.25 ∧
    bassFreqAt 1 1 = 49 ∧ (49 : ℚ) ≠ 98 := by
  have ht : t 1 1 = 1 := by norm_num [t]
  have hm : jsMod (t 1 1) 2 = 1 := by
    rw [ht]
    exact jsMod_eq_self (by norm_num) (by norm_num)
  refine ⟨by rw [hm], by rw [hm]; norm_num, ?_, by norm_num⟩
  simp only [bassFreqAt]
  rw [hm]
  norm_num

/-- C4 (amended): with `mp = t mod 2.0`, the bass root frequency is 98.00 Hz
on the open interval `1 < mp < 1.25`, 73.42 Hz when `mp > 1.75`, and
49.00 Hz otherwise, and the bass sample is `(phase·2 − 1)·0.4` with
`phase = (t · f) mod 1.0`. -/
theorem c4_bass_pattern (sr i : ℕ) (mp : ℚ) (hmp : mp = jsMod (t sr i) 2) :
    (1 < mp → mp < 1.25 → bassFreqAt sr i = 98) ∧
    (1.75 < mp → bassFreqAt sr i = 73.42) ∧
    (¬(1 < mp ∧ mp < 1.25) → ¬1.75 < mp → bassFreqAt sr i = 49) ∧
    bassAt sr i = (jsMod (t sr i * bassFreqAt sr i) 1 * 2 - 1) * 0.4 := by
  subst hmp
  refine ⟨?_, ?_, ?_, rfl⟩
  · intro h1 h2
    simp only [bassFreqAt]
    rw [if_neg (show ¬jsMod (t sr i) 2 > 1.75 by push_neg; norm_num; linarith),
      if_pos ⟨h1, h2⟩]
    norm_num
  · intro h
    simp only [bassFreqAt]
    rw [if_pos h]
  · intro hn hn2
    simp only [bassFreqAt]
    rw [if_neg hn2, if_neg hn]
    norm_num

theorem c4_witness :
    1 < jsMod (t 8 9) 2 ∧ jsMod (t 8 9) 2 < 1.25 ∧ bassFreqAt 8 9 = 98 :=
  have ht : t 8 9 = 9 / 8 := by norm_num [t]
  have hm : jsMod (t 8 9) 2 = 9 / 8 := by
    rw [ht]; exact jsMod_eq_self (by norm_num) (by norm_num)
  have h1 : 1 < jsMod (t 8 9) 2 := by rw [hm]; norm_num
  have h2 : jsMod (t 8 9) 2 < 1.25 := by rw [hm]; norm_num
  ⟨h1, h2, (c4_bass_pattern 8 9 (jsMod (t 8 9) 2) rfl).1 h1 h2⟩

/-- C5: the randomness enters the mix only as a multiplicative factor inside
the hi-hat voice.  For any two noise streams (two runs with identical
parameters), every sample decomposes over the same deterministic kick value,
bass value, and hi-hat gating/envelope `hatEnvelope`; the runs differ only in
the noise factor of the hi-hat term. -/
theorem c5_noise_isolation (n1 n2 : ℕ → ℝ) (sr i : ℕ) :
    hatAt n1 sr i = hatEnvelope sr i * n1 i ∧
    hatAt n2 sr i = hatEnvelope sr i * n2 i ∧
    sampleAt n1 sr i =
      clip (kickAt sr i * 0.8 + hatEnvelope sr i * n1 i * 0.6 + (bassAt sr i : ℝ) * 0.5) ∧
    sampleAt n2 sr i =
      clip (kickAt sr i * 0.8 + hatEnvelope sr i * n2 i * 0.6 + (bassAt sr i : ℝ) * 0.5) := by
  have key : ∀ n : ℕ → ℝ, hatAt n sr i = hatEnvelope sr i * n i := by
    intro n
    simp only [hatAt, hatEnvelope]
    split
    · ring
    · simp
  refine ⟨key n1, key n2, ?_, ?_⟩ <;> simp only [sampleAt, key]

lemma play_eq (m : AudioManager) (hc : m.ctx.isNone = false)
    (hb : m.buffer.isNone = false) (hg : m.gainNode.isNone = false) :
    play m =
      { ctx := m.ctx, buffer := m.buffer, source := true, isPlaying := true,
        gainNode := m.gainNode,
        live := (if m.source then m.live - 1 else m.live) + 1 } := by
  unfold play stop
  rw [hc, hb, hg]
  cases hs : m.source <;> simp [hs]

/-- C6: `play()` always stops any existing session before creating and
starting a new one, so when the context, buffer and gain node are present it
leaves exactly one running session, and a second `play()` in succession
still leaves exactly one. -/
theorem c6_single_session (m : AudioManager)
    (hlive : m.live = if m.source then 1 else 0)
    (hc : m.ctx.isNone = false) (hb : m.buffer.isNone = false)
    (hg : m.gainNode.isNone = false) :
    (play m).live = 1 ∧ (play m).source = true ∧
    (play (play m)).live = 1 ∧ (play (play m)).source = true := by
  have h1 := play_eq m hc hb hg
  have hl1 : (play m).live = 1 := by
    rw [h1]
    cases hs : m.source
    · simp [hs] at hlive
      simp [hs, hlive]
    · simp [hs] at hlive
      simp [hs, hlive]
  have hs1 : (play m).source = true := by rw [h1]
  have h2 := play_eq (play m) (by rw [h1]; exact hc) (by rw [h1]; exact hb)
    (by rw [h1]; exact hg)
  have hl2 : (play (play m)).live = 1 := by
    rw [h2]
    simp [hs1, hl1]
  have hs2 : (play (play m)).source = true := by rw [h2]
  exact ⟨hl1, hs1, hl2, hs2⟩

theorem c6_witness :
    (play (init (mkAudioManager (some { suspended := false, sampleRate := 44100 }))
      true (fun _ => 0)).1).live = 1 ∧
    (play (play (init (mkAudioManager (some { suspended := false, sampleRate := 44100 }))
      true (fun _ => 0)).1)).live = 1 :=
  have hM :
      (init (mkAudioManager (some { suspended := false, sampleRate := 44100 }))
        true (fun _ => 0)).1 =
      { ctx := some { suspended := false, sampleRate := 44100 },
        buffer := some (generateDiscoLoop (fun _ => 0) 44100),
        source := false, isPlaying := false, gainNode := some 1, live := 0 } := by
    simp [init, genBufferIfMissing, mkAudioManager]
  have h := c6_single_session
    ((init (mkAudioManager (some { suspended := false, sampleRate := 44100 }))
      true (fun _ => 0)).1)
    (by simp [hM]) (by simp [hM]) (by simp [hM]) (by simp [hM])
  ⟨h.1, h.2.2.1⟩

/-- C7: `stop()` on a controller with no active session (and hence, by the
class invariant, not playing) never lets an error escape, leaves the state
unchanged, and remains a no-op under any number of repeated calls. -/
theorem c7_stop_noop (m : AudioManager) (hs : m.source = false)
    (hp : m.isPlaying = false) :
    (stop m).2 = false ∧ (stop m).1 = m ∧
    ∀ n : ℕ, Nat.iterate (fun s => (stop s).1) n m = m := by
  obtain ⟨c, b, s, p, g, l⟩ := m
  simp only at hs hp
  subst hs hp
  have hfix : (fun s => (stop s).1) ⟨c, b, false, false, g, l⟩ =
      (⟨c, b, false, false, g, l⟩ : AudioManager) := by
    simp [stop]
  exact ⟨by simp [stop], hfix, fun n => Function.iterate_fixed hfix n⟩

theorem c7_witness :
    (mkAudioManager none).source = false ∧
    (stop (mkAudioManager none)).2 = false ∧
    (stop (mkAudioManager none)).1 = mkAudioManager none :=
  ⟨rfl, (c7_stop_noop (mkAudioManager none) rfl rfl).1,
    (c7_stop_noop (mkAudioManager none) rfl rfl).2.1⟩

/-- C8 counterexample: on a controller whose device is suspended, a failing
resume makes `init()` raise to its caller (the async method rejects): the
error flag is `true`, contradicting the claim that the failure is swallowed.
The source has no try/catch around `await this.ctx.resume()`. -/
theorem c8_counterexample :
    (mkAudioManager (some { suspended := true, sampleRate := 44100 })).ctx =
      some { suspended := true, sampleRate := 44100 } ∧
    (init (mkAudioManager (some { suspended := true, sampleRate := 44100 }))
      false (fun _ => 0)).2 = true := by
  constructor
  · rfl
  · simp [init, mkAudioManager]

/-- C8 (amended): when the device is suspended and the resume step fails,
`init()` propagates the failure to the caller, leaves the whole controller
state unchanged (device still suspended, no buffer generated), and a
subsequent `play()` is a safe no-op while the buffer is still absent. -/
theorem c8_resume_failure (m : AudioManager) (c : AudioCtx) (noise : ℕ → ℝ)
    (hc : m.ctx = some c) (hs : c.suspended = true) (hb : m.buffer = none) :
    (init m false noise).2 = true ∧
    (init m false noise).1 = m ∧
    play (init m false noise).1 = (init m false noise).1 := by
  have h1 : init m false noise = (m, true) := by
    unfold init
    rw [hc]
    simp [hs]
  refine ⟨by rw [h1], by rw [h1], ?_⟩
  rw [h1]
  show play m = m
  unfold play
  rw [hb]
  simp

theorem c8_witness :
    (mkAudioManager (some { suspended := true, sampleRate := 44100 })).buffer = none ∧
    (init (mkAudioManager (some { suspended := true, sampleRate := 44100 }))
      false (fun _ => 0)).1 =
      mkAudioManager (some { suspended := true, sampleRate := 44100 }) ∧
    play (init (mkAudioManager (some { suspended := true, sampleRate := 44100 }))
      false (fun _ => 0)).1 =
      (init (mkAudioManager (some { suspended := true, sampleRate := 44100 }))
        false (fun _ => 0)).1 :=
  ⟨rfl,
    (c8_resume_failure (mkAudioManager (some { suspended := true, sampleRate := 44100 }))
      { suspended := true, sampleRate := 44100 } (fun _ => 0) rfl rfl rfl).2.1,
    (c8_resume_failure (mkAudioManager (some { suspended := true, sampleRate := 44100 }))
      { suspended := true, sampleRate := 44100 } (fun _ => 0) rfl rfl rfl).2.2⟩

/-- C9: `setVolume(val)` performs no clamping: when a gain node exists the
gain value afterwards is exactly `val`, for any real `val`; when no gain
node exists the call changes nothing; no other field is ever touched. -/
theorem c9_no_clamp (m : AudioManager) (val g : ℝ) :
    (m.gainNode = some g → (setVolume m val).gainNode = some val) ∧
    (m.gainNode = none → setVolume m val = m) ∧
    (setVolume m val).ctx = m.ctx ∧ (setVolume m val).buffer = m.buffer ∧
    (setVolume m val).source = m.source ∧
    (setVolume m val).isPlaying = m.isPlaying := by
  rcases hm : m.gainNode with _ | g2 <;> simp [setVolume, hm]

theorem c9_witness :
    (mkAudioManager (some { suspended := false, sampleRate := 44100 })).gainNode =
      some 1 ∧
    (setVolume (mkAudioManager (some { suspended := false, sampleRate := 44100 }))
      2.5).gainNode = some 2.5 :=
  ⟨rfl,
    (c9_no_clamp (mkAudioManager (some { suspended := false, sampleRate := 44100 }))
      2.5 1).1 rfl⟩

/-- C10: the invariant `isPlaying = (source is non-null)` holds after
construction and is preserved by `init`, `play`, `stop` and `setVolume`. -/
theorem c10_isPlaying_iff_source :
    (∀ c0 : Option AudioCtx,
      (mkAudioManager c0).isPlaying = (mkAudioManager c0).source) ∧
    ∀ m : AudioManager, m.isPlaying = m.source →
      (∀ (resumeOk : Bool) (noise : ℕ → ℝ),
        ((init m resumeOk noise).1).isPlaying = ((init m resumeOk noise).1).source) ∧
      ((play m).isPlaying = (play m).source) ∧
      (((stop m).1).isPlaying = ((stop m).1).source) ∧
      (∀ val : ℝ, (setVolume m val).isPlaying = (setVolume m val).source) := by
  refine ⟨fun c0 => rfl, fun m h => ⟨?_, ?_, ?_, ?_⟩⟩
  · intro resumeOk noise
    rcases hc : m.ctx with _ | c
    · simp [init, hc, h]
    · rcases hb : m.buffer with _ | b <;>
        cases hsus : c.suspended <;> cases resumeOk <;>
        simp [init, genBufferIfMissing, hc, hb, hsus, h]
  · by_cases hg : m.ctx.isNone || m.buffer.isNone || m.gainNode.isNone
    · simp [play, hg, h]
    · simp [play, hg, stop]
  · cases hs : m.source <;> simp [stop, hs]
  · rcases hg : m.gainNode with _ | g <;> simp [setVolume, hg, h]

theorem c10_witness :
    (mkAudioManager none).isPlaying = (mkAudioManager none).source ∧
    (play (mkAudioManager none)).isPlaying = (play (mkAudioManager none)).source :=
  ⟨c10_isPlaying_iff_source.1 none,
    (c10_isPlaying_iff_source.2 (mkAudioManager none) rfl).2.1⟩

end CatDancer
